import Mathlib

/-!
# Sysrepo context change routines: `sr_lycc_lock` and `sr_lycc_unlock`

A shallow embedding of `src/context_change.c`.  The C functions mutate a
connection (`sr_conn_ctx_t`) and the shared memory regions through pointers;
here they are state-passing functions on an explicit `State`.  Every call of
an external routine and the store to `conn->content_id` is appended to a
chronological trace so that ordering properties can be stated.

The lock primitive (`sr_rwlock`, `sr_rwrelock`, `sr_rwunlock`), `sr_shm_remap`,
`ly_ctx_destroy` and `sr_shmmain_ctx_load_modules` have no body in the
excerpt.  They are modelled from the specification; whether one of them
fails is an input of the model (`Faults`).
-/

namespace Sysrepo

/-- Lock modes (`sr_lock_mode_t`).  `SR_LOCK_NONE` is the zero value, the one
that `if (remap_mode)` tests for. -/
inductive sr_lock_mode_t where
  | SR_LOCK_NONE
  | SR_LOCK_READ
  | SR_LOCK_READ_UPGR
  | SR_LOCK_WRITE
  deriving DecidableEq

open sr_lock_mode_t

/-- Connection identifier (`sr_cid_t`). -/
abbrev sr_cid_t := Nat

/-- Error information (`sr_error_info_t *`, with `NULL` rendered as `none` of
`Option sr_error_info_t`).  The kinds are those of the error taxonomy of the
specification. -/
inductive sr_error_info_t where
  | LOCK_TIMEOUT
  | INTERNAL
  | REGION_REMAP_FAILED
  | SCHEMA_RELOAD_FAILED
  deriving DecidableEq

open sr_error_info_t

/-- Modelled from the spec: the state of a shared reader/writer lock
(`sr_rwlock_t`, whose declaration is not in the excerpt): the holds currently
granted, each with the identity of its holder and its mode, most recent
first. -/
structure sr_rwlock_t where
  holders : List (sr_cid_t × sr_lock_mode_t)
  deriving DecidableEq

/-- Modelled from the spec: whether a new hold in `mode` is compatible with
the holds already granted: at most one writer or any number of readers,
never both, and at most one upgradeable reader.  No hold exists in mode
`SR_LOCK_NONE`. -/
def sr_rwlock_compatible (lock : sr_rwlock_t) (mode : sr_lock_mode_t) : Bool :=
  match mode with
  | SR_LOCK_NONE => false
  | SR_LOCK_READ => lock.holders.all (fun h => h.2 != SR_LOCK_WRITE)
  | SR_LOCK_READ_UPGR =>
      lock.holders.all (fun h => h.2 != SR_LOCK_WRITE && h.2 != SR_LOCK_READ_UPGR)
  | SR_LOCK_WRITE => lock.holders.isEmpty

/-- Modelled from the spec: `sr_rwlock(lock, timeout, mode, cid, ...)`, the
`acquire` of the shared lock primitive, whose body is not in the excerpt.  An
injected `fault` is returned as it is and leaves the lock alone.  Otherwise a
request in mode `SR_LOCK_NONE` is an error, a compatible request is granted
(the hold is recorded) and an incompatible one times out, since in this
sequential model nobody releases the lock while the caller waits.  All
recorded holders are taken to be alive, so no recovery takes place. -/
def sr_rwlock (lock : sr_rwlock_t) (mode : sr_lock_mode_t) (cid : sr_cid_t)
    (fault : Option sr_error_info_t) : Option sr_error_info_t × sr_rwlock_t :=
  match fault with
  | some e => (some e, lock)
  | none =>
    if mode = SR_LOCK_NONE then (some INTERNAL, lock)
    else if sr_rwlock_compatible lock mode then
      (none, { holders := (cid, mode) :: lock.holders })
    else (some LOCK_TIMEOUT, lock)

/-- Modelled from the spec: `sr_rwrelock(lock, timeout, mode, cid, ...)`, the
`upgrade` and `downgrade` of the shared lock primitive.  A downgrade
(`mode = SR_LOCK_READ`) is valid only from a WRITE hold of `cid`, which it
turns into a READ hold.  An upgrade (`mode = SR_LOCK_WRITE`) is valid only
from an upgradeable-read hold of `cid` and times out while another hold
exists.  A failed relock leaves the lock as it was. -/
def sr_rwrelock (lock : sr_rwlock_t) (mode : sr_lock_mode_t) (cid : sr_cid_t)
    (fault : Option sr_error_info_t) : Option sr_error_info_t × sr_rwlock_t :=
  match fault with
  | some e => (some e, lock)
  | none =>
    match mode with
    | SR_LOCK_READ =>
      if (cid, SR_LOCK_WRITE) ∈ lock.holders then
        (none, { holders := (cid, SR_LOCK_READ) :: lock.holders.erase (cid, SR_LOCK_WRITE) })
      else (some INTERNAL, lock)
    | SR_LOCK_WRITE =>
      if (cid, SR_LOCK_READ_UPGR) ∈ lock.holders then
        if (lock.holders.erase (cid, SR_LOCK_READ_UPGR)).isEmpty then
          (none, { holders := [(cid, SR_LOCK_WRITE)] })
        else (some LOCK_TIMEOUT, lock)
      else (some INTERNAL, lock)
    | _ => (some INTERNAL, lock)

/-- Modelled from the spec: `sr_rwunlock(lock, timeout, mode, cid, func)`, the
`release` of the shared lock primitive: the most recent hold of `cid` in
`mode` is dropped.  It returns nothing and cannot fail. -/
def sr_rwunlock (lock : sr_rwlock_t) (mode : sr_lock_mode_t) (cid : sr_cid_t) : sr_rwlock_t :=
  { holders := lock.holders.erase (cid, mode) }

/-- Does `cid` hold `lock` in `mode`? -/
def sr_rwlock_held (lock : sr_rwlock_t) (cid : sr_cid_t) (mode : sr_lock_mode_t) : Prop :=
  (cid, mode) ∈ lock.holders

instance (lock : sr_rwlock_t) (cid : sr_cid_t) (mode : sr_lock_mode_t) :
    Decidable (sr_rwlock_held lock cid mode) := by
  unfold sr_rwlock_held; infer_instance

/-- Modelled from the spec: a module descriptor of the Module Metadata Store
(`sr_mod_t`), reduced to what a schema context is loaded from: name,
revision and enabled features. -/
structure sr_mod_t where
  name : String
  revision : String
  features : List String
  deriving DecidableEq

/-- Modelled from the spec: the schema context of the external schema
library (`struct ly_ctx`), an opaque object for this code; it is represented
by the modules that were loaded into it. -/
structure ly_ctx where
  modules : List sr_mod_t
  deriving DecidableEq

/-- Main SHM (`sr_main_shm_t`): the fields `sr_lycc_lock` uses. -/
structure sr_main_shm_t where
  context_lock : sr_rwlock_t
  content_id : Nat
  deriving DecidableEq

/-- Connection (`sr_conn_ctx_t`): the fields `sr_lycc_lock` uses.  `ly_ctx` is
a pointer, `NULL` being `none`. -/
structure sr_conn_ctx_t where
  cid : sr_cid_t
  ly_ctx : Option ly_ctx
  content_id : Nat
  remap_lock : sr_rwlock_t
  deriving DecidableEq

/-- The two locks `sr_lycc_lock` works with. -/
inductive LockId where
  | context_lock
  | remap_lock
  deriving DecidableEq

/-- One step of a call, as recorded in the trace: the external routine that
was called with the arguments that matter and its result, or the store to
`conn->content_id`. -/
inductive Event where
  | rwlock (lock : LockId) (mode : sr_lock_mode_t) (cid : sr_cid_t)
      (res : Option sr_error_info_t)
  | shm_remap (res : Option sr_error_info_t)
  | rwrelock (lock : LockId) (mode : sr_lock_mode_t) (cid : sr_cid_t)
      (res : Option sr_error_info_t)
  | ly_ctx_destroy (ctx : Option ly_ctx)
  | ctx_load_modules (res : Option sr_error_info_t)
  | set_content_id (id : Nat)
  | rwunlock (lock : LockId) (mode : sr_lock_mode_t) (cid : sr_cid_t)
  deriving DecidableEq

/-- The failures injected into the external routines of one call of
`sr_lycc_lock`, `none` meaning that the routine is not made to fail. -/
structure Faults where
  context_lock : Option sr_error_info_t
  remap_lock : Option sr_error_info_t
  shm_remap : Option sr_error_info_t
  remap_relock : Option sr_error_info_t
  load_modules : Option sr_error_info_t
  deriving DecidableEq

/-- No routine is made to fail. -/
def Faults.noFault : Faults :=
  { context_lock := none, remap_lock := none, shm_remap := none,
    remap_relock := none, load_modules := none }

/-- What a call works on: the connection, main SHM, the module table stored
in shared memory, and the trace of the steps taken so far. -/
structure State where
  conn : sr_conn_ctx_t
  main_shm : sr_main_shm_t
  mods : List sr_mod_t
  trace : List Event
  deriving DecidableEq

/-- Modelled from the spec: `sr_shm_remap(&conn->main_shm, 0)`, whose body is
not in the excerpt.  It re-establishes the mapping of the region at its
current size; the mapping itself is memory layout and is not represented, so
only the result and the step are. -/
def sr_shm_remap (st : State) (fault : Option sr_error_info_t) :
    Option sr_error_info_t × State :=
  (fault, { st with trace := st.trace ++ [Event.shm_remap fault] })

/-- Modelled from the spec: `sr_shmmain_ctx_load_modules(conn, conn->ly_ctx)`,
whose body is not in the excerpt: every stored module is loaded with its
recorded feature set, which gives the connection a context made of the
stored module table.  On failure the connection is left as it is. -/
def sr_shmmain_ctx_load_modules (st : State) (fault : Option sr_error_info_t) :
    Option sr_error_info_t × State :=
  match fault with
  | some e => (some e, { st with trace := st.trace ++ [Event.ctx_load_modules (some e)] })
  | none =>
    (none, { st with
      conn := { st.conn with ly_ctx := some { modules := st.mods } }
      trace := st.trace ++ [Event.ctx_load_modules none] })

/-- The code of `sr_lycc_lock` from the label `cleanup_unlock` on: the remap
lock is released in `remap_mode` unless that is `SR_LOCK_NONE`, then the
context lock is released in `mode` if an error is returned. -/
def cleanup_unlock (st : State) (mode remap_mode : sr_lock_mode_t)
    (err_info : Option sr_error_info_t) : Option sr_error_info_t × State :=
  let st1 : State :=
    if remap_mode ≠ SR_LOCK_NONE then
      { st with
        conn := { st.conn with
          remap_lock := sr_rwunlock st.conn.remap_lock remap_mode st.conn.cid }
        trace := st.trace ++ [Event.rwunlock LockId.remap_lock remap_mode st.conn.cid] }
    else st
  let st2 : State :=
    if err_info.isSome then
      { st1 with
        main_shm := { st1.main_shm with
          context_lock := sr_rwunlock st1.main_shm.context_lock mode st1.conn.cid }
        trace := st1.trace ++ [Event.rwunlock LockId.context_lock mode st1.conn.cid] }
    else st1
  (err_info, st2)

/-- The function `sr_lycc_lock(conn, mode)` of `context_change.c`: lock the
context and update it if needed.  The result is the returned `err_info`
(`none` for `NULL`) and the state the call leaves.  `main_shm`, which the C
code computes once with `SR_CONN_MAIN_SHM(conn)`, is the shared region
`st.main_shm`; the timeouts and the function name passed for logging are
left out.  Each `goto cleanup_unlock` is a call of `cleanup_unlock` with the
current values of `remap_mode` and `err_info`. -/
def sr_lycc_lock (f : Faults) (st : State) (mode : sr_lock_mode_t) :
    Option sr_error_info_t × State :=
  -- remap_mode = SR_LOCK_NONE
  -- LOCK
  match sr_rwlock st.main_shm.context_lock mode st.conn.cid f.context_lock with
  | (some err_info, _) =>
    (some err_info, { st with
      trace := st.trace ++ [Event.rwlock LockId.context_lock mode st.conn.cid (some err_info)] })
  | (none, context_lock) =>
    let st : State := { st with
      main_shm := { st.main_shm with context_lock := context_lock }
      trace := st.trace ++ [Event.rwlock LockId.context_lock mode st.conn.cid none] }
    if st.main_shm.content_id ≠ st.conn.content_id then
      -- REMAP LOCK
      match sr_rwlock st.conn.remap_lock SR_LOCK_WRITE st.conn.cid f.remap_lock with
      | (some err_info, _) =>
        cleanup_unlock { st with
          trace := st.trace ++
            [Event.rwlock LockId.remap_lock SR_LOCK_WRITE st.conn.cid (some err_info)] }
          mode SR_LOCK_NONE (some err_info)
      | (none, remap_lock) =>
        let st : State := { st with
          conn := { st.conn with remap_lock := remap_lock }
          trace := st.trace ++ [Event.rwlock LockId.remap_lock SR_LOCK_WRITE st.conn.cid none] }
        -- remap_mode = SR_LOCK_WRITE
        -- remap main SHM
        match sr_shm_remap st f.shm_remap with
        | (some err_info, st) => cleanup_unlock st mode SR_LOCK_WRITE (some err_info)
        | (none, st) =>
          -- REMAP DOWNGRADE
          match sr_rwrelock st.conn.remap_lock SR_LOCK_READ st.conn.cid f.remap_relock with
          | (some err_info, _) =>
            cleanup_unlock { st with
              trace := st.trace ++
                [Event.rwrelock LockId.remap_lock SR_LOCK_READ st.conn.cid (some err_info)] }
              mode SR_LOCK_WRITE (some err_info)
          | (none, remap_lock) =>
            let st : State := { st with
              conn := { st.conn with remap_lock := remap_lock }
              trace := st.trace ++
                [Event.rwrelock LockId.remap_lock SR_LOCK_READ st.conn.cid none] }
            -- remap_mode = SR_LOCK_READ
            -- context was updated, destroy it
            let st : State := { st with
              conn := { st.conn with ly_ctx := none }
              trace := st.trace ++ [Event.ly_ctx_destroy st.conn.ly_ctx] }
            -- create it again from SHM modules
            match sr_shmmain_ctx_load_modules st f.load_modules with
            | (some err_info, st) => cleanup_unlock st mode SR_LOCK_READ (some err_info)
            | (none, st) =>
              let st : State := { st with
                conn := { st.conn with content_id := st.main_shm.content_id }
                trace := st.trace ++ [Event.set_content_id st.main_shm.content_id] }
              cleanup_unlock st mode SR_LOCK_READ none
    else
      cleanup_unlock st mode SR_LOCK_NONE none

/-- The function `sr_lycc_unlock(conn, mode)` of `context_change.c`: unlock
the context after it is no longer accessed. -/
def sr_lycc_unlock (st : State) (mode : sr_lock_mode_t) : State :=
  -- UNLOCK
  { st with
    main_shm := { st.main_shm with
      context_lock := sr_rwunlock st.main_shm.context_lock mode st.conn.cid }
    trace := st.trace ++ [Event.rwunlock LockId.context_lock mode st.conn.cid] }

/-- The steps taken by one call of `sr_lycc_lock`, in the order they are
taken: what the call appends to the trace. -/
def sr_lycc_lock_steps (f : Faults) (st : State) (mode : sr_lock_mode_t) : List Event :=
  (sr_lycc_lock f st mode).2.trace.drop st.trace.length

/-- Is the step an acquisition of `lock` that was granted? -/
def Event.isGrant (lock : LockId) : Event → Bool
  | Event.rwlock l _ _ none => l == lock
  | _ => false

/-- Is the step a release of `lock`? -/
def Event.isRelease (lock : LockId) : Event → Bool
  | Event.rwunlock l _ _ => l == lock
  | _ => false

/-- The place of a step in the order of the statements of `sr_lycc_lock`. -/
def Event.stepRank : Event → Nat
  | Event.rwlock LockId.context_lock _ _ _ => 0
  | Event.rwlock LockId.remap_lock _ _ _ => 1
  | Event.shm_remap _ => 2
  | Event.rwrelock _ _ _ _ => 3
  | Event.ly_ctx_destroy _ => 4
  | Event.ctx_load_modules _ => 5
  | Event.set_content_id _ => 6
  | Event.rwunlock LockId.remap_lock _ _ => 7
  | Event.rwunlock LockId.context_lock _ _ => 8

/-- The state another connection `conn` finds after a call that ended in
`st`: the same shared memory and trace, its own connection. -/
def State.forConn (st : State) (conn : sr_conn_ctx_t) : State :=
  { st with conn := conn }

/-- The scenario of two connections: the connection of `st` and then
`conn2` call `sr_lycc_lock` in READ mode, no routine being made to fail and
shared memory being left alone between the two calls.  The results of the
first and of the second call. -/
def sr_lycc_lock_both (st : State) (conn2 : sr_conn_ctx_t) :
    (Option sr_error_info_t × State) × (Option sr_error_info_t × State) :=
  (sr_lycc_lock Faults.noFault st SR_LOCK_READ,
   sr_lycc_lock Faults.noFault
     ((sr_lycc_lock Faults.noFault st SR_LOCK_READ).2.forConn conn2) SR_LOCK_READ)

/-! ## Sample data -/

/-- A module table as stored in shared memory after a schema change. -/
def sampleMods : List sr_mod_t :=
  [{ name := "ietf-yang-library", revision := "2019-01-04", features := [] },
   { name := "sysrepo", revision := "2021-01-18", features := ["f1"] }]

/-- The context of a connection that was loaded before the schema change. -/
def sampleOldCtx : ly_ctx :=
  { modules := [{ name := "ietf-yang-library", revision := "2019-01-04", features := [] }] }

/-- Main SHM with a free context lock and content id 2. -/
def sampleShm : sr_main_shm_t :=
  { context_lock := { holders := [] }, content_id := 2 }

/-- A connection with cid 1 whose cached content id 1 is stale. -/
def sampleConn1 : sr_conn_ctx_t :=
  { cid := 1, ly_ctx := some sampleOldCtx, content_id := 1, remap_lock := { holders := [] } }

/-- A connection with cid 2 whose cached content id 0 is stale and that has
no context yet. -/
def sampleConn2 : sr_conn_ctx_t :=
  { cid := 2, ly_ctx := none, content_id := 0, remap_lock := { holders := [] } }

/-- A connection with cid 3 whose cached content id is the shared one. -/
def sampleConn3 : sr_conn_ctx_t :=
  { cid := 3, ly_ctx := some { modules := sampleMods }, content_id := 2,
    remap_lock := { holders := [] } }

/-- The stale connection 1 before a call. -/
def sampleStale : State :=
  { conn := sampleConn1, main_shm := sampleShm, mods := sampleMods, trace := [] }

/-- The current connection 3 before a call. -/
def sampleCurrent : State :=
  { conn := sampleConn3, main_shm := sampleShm, mods := sampleMods, trace := [] }

/-- The stale connection 1 while connection 3 holds the context lock in
WRITE mode. -/
def sampleWriteLocked : State :=
  { sampleStale with
    main_shm := { sampleShm with context_lock := { holders := [(3, SR_LOCK_WRITE)] } } }

/-- The current connection 3 while connections 1 and 3 hold the context
lock in READ mode. -/
def sampleShared : State :=
  { sampleCurrent with
    main_shm := { sampleShm with
      context_lock := { holders := [(3, SR_LOCK_READ), (1, SR_LOCK_READ)] } } }

/-- Only `sr_shm_remap` is made to fail. -/
def faultShmRemap : Faults :=
  { Faults.noFault with shm_remap := some REGION_REMAP_FAILED }

/-- Only the downgrade of the remap lock is made to fail. -/
def faultRelock : Faults :=
  { Faults.noFault with remap_relock := some LOCK_TIMEOUT }

/-- Only the load of the modules is made to fail. -/
def faultLoad : Faults :=
  { Faults.noFault with load_modules := some SCHEMA_RELOAD_FAILED }

/-! ## Facts about the lock primitive -/

/-- A granted acquisition records the hold of the caller. -/
theorem sr_rwlock_fst_none {lock : sr_rwlock_t} {mode : sr_lock_mode_t} {cid : sr_cid_t}
    {fault : Option sr_error_info_t} (h : (sr_rwlock lock mode cid fault).1 = none) :
    sr_rwlock lock mode cid fault = (none, { holders := (cid, mode) :: lock.holders }) := by
  unfold sr_rwlock at h ⊢
  cases fault with
  | some e => simp at h
  | none =>
    by_cases hm : mode = SR_LOCK_NONE
    · simp [hm] at h
    · by_cases hc : sr_rwlock_compatible lock mode = true
      · simp [hm, hc]
      · simp [hm, hc] at h

/-- A failed acquisition leaves the lock as it was. -/
theorem sr_rwlock_fst_some {lock : sr_rwlock_t} {mode : sr_lock_mode_t} {cid : sr_cid_t}
    {fault : Option sr_error_info_t} {e : sr_error_info_t}
    (h : (sr_rwlock lock mode cid fault).1 = some e) :
    sr_rwlock lock mode cid fault = (some e, lock) := by
  unfold sr_rwlock at h ⊢
  cases fault with
  | some e0 => simp at h; simp [h]
  | none =>
    by_cases hm : mode = SR_LOCK_NONE
    · simp [hm] at h; simp [hm, h]
    · by_cases hc : sr_rwlock_compatible lock mode = true
      · simp [hm, hc] at h
      · simp [hm, hc] at h; simp [hm, hc, h]

/-- The downgrade of a WRITE hold that was just granted fails only when it is
made to fail, and then leaves the WRITE hold in place. -/
theorem sr_rwrelock_downgrade (holders : List (sr_cid_t × sr_lock_mode_t)) (cid : sr_cid_t)
    (fault : Option sr_error_info_t) :
    sr_rwrelock { holders := (cid, SR_LOCK_WRITE) :: holders } SR_LOCK_READ cid fault =
      (fault, match fault with
        | some _ => { holders := (cid, SR_LOCK_WRITE) :: holders }
        | none => { holders := (cid, SR_LOCK_READ) :: holders }) := by
  cases fault <;> simp [sr_rwrelock]

/-! ## The seven paths through `sr_lycc_lock` -/

/-- Path 0: the acquisition of the context lock fails. -/
theorem sr_lycc_lock_path_context_lock {f : Faults} {st : State} {mode : sr_lock_mode_t}
    {e : sr_error_info_t}
    (h0 : (sr_rwlock st.main_shm.context_lock mode st.conn.cid f.context_lock).1 = some e) :
    sr_lycc_lock f st mode =
      (some e, { st with
        trace := st.trace ++ [Event.rwlock LockId.context_lock mode st.conn.cid (some e)] }) := by
  unfold sr_lycc_lock
  rw [sr_rwlock_fst_some h0]

/-- Path 1: the context lock is granted and the content ids are equal. -/
theorem sr_lycc_lock_path_current {f : Faults} {st : State} {mode : sr_lock_mode_t}
    (h0 : (sr_rwlock st.main_shm.context_lock mode st.conn.cid f.context_lock).1 = none)
    (hid : st.main_shm.content_id = st.conn.content_id) :
    sr_lycc_lock f st mode =
      (none, { st with
        main_shm := { st.main_shm with
          context_lock := { holders := (st.conn.cid, mode) :: st.main_shm.context_lock.holders } }
        trace := st.trace ++ [Event.rwlock LockId.context_lock mode st.conn.cid none] }) := by
  unfold sr_lycc_lock
  rw [sr_rwlock_fst_none h0]
  simp [hid, cleanup_unlock]

/-- Path 2: the acquisition of the remap lock fails. -/
theorem sr_lycc_lock_path_remap_lock {f : Faults} {st : State} {mode : sr_lock_mode_t}
    {e : sr_error_info_t}
    (h0 : (sr_rwlock st.main_shm.context_lock mode st.conn.cid f.context_lock).1 = none)
    (hid : st.main_shm.content_id ≠ st.conn.content_id)
    (h1 : (sr_rwlock st.conn.remap_lock SR_LOCK_WRITE st.conn.cid f.remap_lock).1 = some e) :
    sr_lycc_lock f st mode =
      (some e, { st with
        trace := st.trace ++
          [Event.rwlock LockId.context_lock mode st.conn.cid none,
           Event.rwlock LockId.remap_lock SR_LOCK_WRITE st.conn.cid (some e),
           Event.rwunlock LockId.context_lock mode st.conn.cid] }) := by
  unfold sr_lycc_lock
  rw [sr_rwlock_fst_none h0]
  simp [hid, sr_rwlock_fst_some h1, cleanup_unlock, sr_rwunlock]

/-- Path 3: the remap of main SHM fails. -/
theorem sr_lycc_lock_path_shm_remap {f : Faults} {st : State} {mode : sr_lock_mode_t}
    {e : sr_error_info_t}
    (h0 : (sr_rwlock st.main_shm.context_lock mode st.conn.cid f.context_lock).1 = none)
    (hid : st.main_shm.content_id ≠ st.conn.content_id)
    (h1 : (sr_rwlock st.conn.remap_lock SR_LOCK_WRITE st.conn.cid f.remap_lock).1 = none)
    (h2 : f.shm_remap = some e) :
    sr_lycc_lock f st mode =
      (some e, { st with
        trace := st.trace ++
          [Event.rwlock LockId.context_lock mode st.conn.cid none,
           Event.rwlock LockId.remap_lock SR_LOCK_WRITE st.conn.cid none,
           Event.shm_remap (some e),
           Event.rwunlock LockId.remap_lock SR_LOCK_WRITE st.conn.cid,
           Event.rwunlock LockId.context_lock mode st.conn.cid] }) := by
  unfold sr_lycc_lock
  rw [sr_rwlock_fst_none h0]
  simp [hid, sr_rwlock_fst_none h1, sr_shm_remap, h2, cleanup_unlock, sr_rwunlock]

/-- Path 4: the downgrade of the remap lock fails. -/
theorem sr_lycc_lock_path_relock {f : Faults} {st : State} {mode : sr_lock_mode_t}
    {e : sr_error_info_t}
    (h0 : (sr_rwlock st.main_shm.context_lock mode st.conn.cid f.context_lock).1 = none)
    (hid : st.main_shm.content_id ≠ st.conn.content_id)
    (h1 : (sr_rwlock st.conn.remap_lock SR_LOCK_WRITE st.conn.cid f.remap_lock).1 = none)
    (h2 : f.shm_remap = none) (h3 : f.remap_relock = some e) :
    sr_lycc_lock f st mode =
      (some e, { st with
        trace := st.trace ++
          [Event.rwlock LockId.context_lock mode st.conn.cid none,
           Event.rwlock LockId.remap_lock SR_LOCK_WRITE st.conn.cid none,
           Event.shm_remap none,
           Event.rwrelock LockId.remap_lock SR_LOCK_READ st.conn.cid (some e),
           Event.rwunlock LockId.remap_lock SR_LOCK_WRITE st.conn.cid,
           Event.rwunlock LockId.context_lock mode st.conn.cid] }) := by
  unfold sr_lycc_lock
  rw [sr_rwlock_fst_none h0]
  simp [hid, sr_rwlock_fst_none h1, sr_shm_remap, h2, h3, sr_rwrelock_downgrade,
    cleanup_unlock, sr_rwunlock]

/-- Path 5: loading the modules into the context fails. -/
theorem sr_lycc_lock_path_load {f : Faults} {st : State} {mode : sr_lock_mode_t}
    {e : sr_error_info_t}
    (h0 : (sr_rwlock st.main_shm.context_lock mode st.conn.cid f.context_lock).1 = none)
    (hid : st.main_shm.content_id ≠ st.conn.content_id)
    (h1 : (sr_rwlock st.conn.remap_lock SR_LOCK_WRITE st.conn.cid f.remap_lock).1 = none)
    (h2 : f.shm_remap = none) (h3 : f.remap_relock = none) (h4 : f.load_modules = some e) :
    sr_lycc_lock f st mode =
      (some e, { st with
        conn := { st.conn with ly_ctx := none }
        trace := st.trace ++
          [Event.rwlock LockId.context_lock mode st.conn.cid none,
           Event.rwlock LockId.remap_lock SR_LOCK_WRITE st.conn.cid none,
           Event.shm_remap none,
           Event.rwrelock LockId.remap_lock SR_LOCK_READ st.conn.cid none,
           Event.ly_ctx_destroy st.conn.ly_ctx,
           Event.ctx_load_modules (some e),
           Event.rwunlock LockId.remap_lock SR_LOCK_READ st.conn.cid,
           Event.rwunlock LockId.context_lock mode st.conn.cid] }) := by
  unfold sr_lycc_lock
  rw [sr_rwlock_fst_none h0]
  simp [hid, sr_rwlock_fst_none h1, sr_shm_remap, h2, h3, h4, sr_rwrelock_downgrade,
    sr_shmmain_ctx_load_modules, cleanup_unlock, sr_rwunlock]

/-- Path 6: every step of the update succeeds. -/
theorem sr_lycc_lock_path_updated {f : Faults} {st : State} {mode : sr_lock_mode_t}
    (h0 : (sr_rwlock st.main_shm.context_lock mode st.conn.cid f.context_lock).1 = none)
    (hid : st.main_shm.content_id ≠ st.conn.content_id)
    (h1 : (sr_rwlock st.conn.remap_lock SR_LOCK_WRITE st.conn.cid f.remap_lock).1 = none)
    (h2 : f.shm_remap = none) (h3 : f.remap_relock = none) (h4 : f.load_modules = none) :
    sr_lycc_lock f st mode =
      (none, { st with
        conn := { st.conn with
          ly_ctx := some { modules := st.mods }
          content_id := st.main_shm.content_id }
        main_shm := { st.main_shm with
          context_lock := { holders := (st.conn.cid, mode) :: st.main_shm.context_lock.holders } }
        trace := st.trace ++
          [Event.rwlock LockId.context_lock mode st.conn.cid none,
           Event.rwlock LockId.remap_lock SR_LOCK_WRITE st.conn.cid none,
           Event.shm_remap none,
           Event.rwrelock LockId.remap_lock SR_LOCK_READ st.conn.cid none,
           Event.ly_ctx_destroy st.conn.ly_ctx,
           Event.ctx_load_modules none,
           Event.set_content_id st.main_shm.content_id,
           Event.rwunlock LockId.remap_lock SR_LOCK_READ st.conn.cid] }) := by
  unfold sr_lycc_lock
  rw [sr_rwlock_fst_none h0]
  simp [hid, sr_rwlock_fst_none h1, sr_shm_remap, h2, h3, h4, sr_rwrelock_downgrade,
    sr_shmmain_ctx_load_modules, cleanup_unlock, sr_rwunlock]

/-- Every call follows one of the seven paths. -/
theorem sr_lycc_lock_result_cases (f : Faults) (st : State) (mode : sr_lock_mode_t) :
    (∃ e, (sr_rwlock st.main_shm.context_lock mode st.conn.cid f.context_lock).1 = some e) ∨
    ((sr_rwlock st.main_shm.context_lock mode st.conn.cid f.context_lock).1 = none ∧
      st.main_shm.content_id = st.conn.content_id) ∨
    ((sr_rwlock st.main_shm.context_lock mode st.conn.cid f.context_lock).1 = none ∧
      st.main_shm.content_id ≠ st.conn.content_id ∧
      ((∃ e, (sr_rwlock st.conn.remap_lock SR_LOCK_WRITE st.conn.cid f.remap_lock).1 = some e) ∨
       ((sr_rwlock st.conn.remap_lock SR_LOCK_WRITE st.conn.cid f.remap_lock).1 = none ∧
        ((∃ e, f.shm_remap = some e) ∨
         (f.shm_remap = none ∧
          ((∃ e, f.remap_relock = some e) ∨
           (f.remap_relock = none ∧
            ((∃ e, f.load_modules = some e) ∨ f.load_modules = none)))))))) := by
  cases h0 : (sr_rwlock st.main_shm.context_lock mode st.conn.cid f.context_lock).1 with
  | some e => exact Or.inl ⟨e, rfl⟩
  | none =>
    right
    by_cases hid : st.main_shm.content_id = st.conn.content_id
    · exact Or.inl ⟨rfl, hid⟩
    · right
      refine ⟨rfl, hid, ?_⟩
      cases h1 : (sr_rwlock st.conn.remap_lock SR_LOCK_WRITE st.conn.cid f.remap_lock).1 with
      | some e => exact Or.inl ⟨e, rfl⟩
      | none =>
        right
        refine ⟨rfl, ?_⟩
        cases h2 : f.shm_remap with
        | some e => exact Or.inl ⟨e, rfl⟩
        | none =>
          right
          refine ⟨rfl, ?_⟩
          cases h3 : f.remap_relock with
          | some e => exact Or.inl ⟨e, rfl⟩
          | none =>
            right
            refine ⟨rfl, ?_⟩
            cases h4 : f.load_modules with
            | some e => exact Or.inl ⟨e, rfl⟩
            | none => exact Or.inr rfl

/-! ## The claims -/

/-- C1: if `sr_lycc_lock(conn, mode)` returns success (`NULL`), the context
lock is held in `mode` by the cid of the connection (the hold was added by
this call) and the cached content id of the connection equals the shared
content id of main SHM, which the call did not change. -/
theorem sr_lycc_lock_success_locked_and_current (f : Faults) (st : State)
    (mode : sr_lock_mode_t) (h : (sr_lycc_lock f st mode).1 = none) :
    sr_rwlock_held (sr_lycc_lock f st mode).2.main_shm.context_lock st.conn.cid mode ∧
    (sr_lycc_lock f st mode).2.main_shm.context_lock.holders =
      (st.conn.cid, mode) :: st.main_shm.context_lock.holders ∧
    (sr_lycc_lock f st mode).2.conn.cid = st.conn.cid ∧
    (sr_lycc_lock f st mode).2.conn.content_id =
      (sr_lycc_lock f st mode).2.main_shm.content_id ∧
    (sr_lycc_lock f st mode).2.main_shm.content_id = st.main_shm.content_id := by
  rcases sr_lycc_lock_result_cases f st mode with
    ⟨e, h0⟩ | ⟨h0, hid⟩ | ⟨h0, hid, ⟨e, h1⟩ | ⟨h1, ⟨e, h2⟩ | ⟨h2, ⟨e, h3⟩ | ⟨h3, ⟨e, h4⟩ | h4⟩⟩⟩⟩
  · rw [sr_lycc_lock_path_context_lock h0] at h; simp at h
  · rw [sr_lycc_lock_path_current h0 hid]; simp [sr_rwlock_held, hid]
  · rw [sr_lycc_lock_path_remap_lock h0 hid h1] at h; simp at h
  · rw [sr_lycc_lock_path_shm_remap h0 hid h1 h2] at h; simp at h
  · rw [sr_lycc_lock_path_relock h0 hid h1 h2 h3] at h; simp at h
  · rw [sr_lycc_lock_path_load h0 hid h1 h2 h3 h4] at h; simp at h
  · rw [sr_lycc_lock_path_updated h0 hid h1 h2 h3 h4]; simp [sr_rwlock_held]

theorem sr_lycc_lock_success_locked_and_current_witness :
    (sr_lycc_lock Faults.noFault sampleStale SR_LOCK_READ).1 = none ∧
    sr_rwlock_held (sr_lycc_lock Faults.noFault sampleStale SR_LOCK_READ).2.main_shm.context_lock
      1 SR_LOCK_READ ∧
    (sr_lycc_lock Faults.noFault sampleStale SR_LOCK_READ).2.conn.content_id = 2 :=
  ⟨by decide,
   (sr_lycc_lock_success_locked_and_current Faults.noFault sampleStale SR_LOCK_READ
      (by decide)).1,
   by decide⟩

/-- C2: if `sr_lycc_lock(conn, mode)` returns an error, whichever step
failed, no lock taken by the call is still held on return: the context lock
and the remap lock of the connection are in the state they had before the
call, and among the steps of the call every lock was released as many times
as it was granted. -/
theorem sr_lycc_lock_error_no_lock_held (f : Faults) (st : State) (mode : sr_lock_mode_t)
    (e : sr_error_info_t) (h : (sr_lycc_lock f st mode).1 = some e) :
    (sr_lycc_lock f st mode).2.main_shm.context_lock = st.main_shm.context_lock ∧
    (sr_lycc_lock f st mode).2.conn.remap_lock = st.conn.remap_lock ∧
    ∀ lock : LockId,
      ((sr_lycc_lock_steps f st mode).filter (Event.isRelease lock)).length =
        ((sr_lycc_lock_steps f st mode).filter (Event.isGrant lock)).length := by
  unfold sr_lycc_lock_steps
  rcases sr_lycc_lock_result_cases f st mode with
    ⟨e, h0⟩ | ⟨h0, hid⟩ | ⟨h0, hid, ⟨e, h1⟩ | ⟨h1, ⟨e, h2⟩ | ⟨h2, ⟨e, h3⟩ | ⟨h3, ⟨e, h4⟩ | h4⟩⟩⟩⟩
  · rw [sr_lycc_lock_path_context_lock h0]
    refine ⟨rfl, rfl, fun lock => ?_⟩
    cases lock <;> simp [Event.isRelease, Event.isGrant]
  · rw [sr_lycc_lock_path_current h0 hid] at h; simp at h
  · rw [sr_lycc_lock_path_remap_lock h0 hid h1]
    refine ⟨rfl, rfl, fun lock => ?_⟩
    cases lock <;> simp [Event.isRelease, Event.isGrant]
  · rw [sr_lycc_lock_path_shm_remap h0 hid h1 h2]
    refine ⟨rfl, rfl, fun lock => ?_⟩
    cases lock <;> simp [Event.isRelease, Event.isGrant]
  · rw [sr_lycc_lock_path_relock h0 hid h1 h2 h3]
    refine ⟨rfl, rfl, fun lock => ?_⟩
    cases lock <;> simp [Event.isRelease, Event.isGrant]
  · rw [sr_lycc_lock_path_load h0 hid h1 h2 h3 h4]
    refine ⟨rfl, rfl, fun lock => ?_⟩
    cases lock <;> simp [Event.isRelease, Event.isGrant]
  · rw [sr_lycc_lock_path_updated h0 hid h1 h2 h3 h4] at h; simp at h

theorem sr_lycc_lock_error_no_lock_held_witness :
    (sr_lycc_lock faultLoad sampleStale SR_LOCK_WRITE).1 = some SCHEMA_RELOAD_FAILED ∧
    (sr_lycc_lock faultLoad sampleStale SR_LOCK_WRITE).2.main_shm.context_lock =
      { holders := [] } ∧
    (sr_lycc_lock faultLoad sampleStale SR_LOCK_WRITE).2.conn.remap_lock = { holders := [] } :=
  ⟨by decide,
   (sr_lycc_lock_error_no_lock_held faultLoad sampleStale SR_LOCK_WRITE SCHEMA_RELOAD_FAILED
      (by decide)).1,
   (sr_lycc_lock_error_no_lock_held faultLoad sampleStale SR_LOCK_WRITE SCHEMA_RELOAD_FAILED
      (by decide)).2.1⟩

/-- C10: if the initial acquisition of the context lock fails, the call
returns exactly that error and does nothing else: its only step is the
failed acquisition (no release, nothing on the remap lock), and the
connection, main SHM and the stored modules are unchanged. -/
theorem sr_lycc_lock_context_lock_failure (f : Faults) (st : State) (mode : sr_lock_mode_t)
    (e : sr_error_info_t)
    (h0 : (sr_rwlock st.main_shm.context_lock mode st.conn.cid f.context_lock).1 = some e) :
    (sr_lycc_lock f st mode).1 = some e ∧
    sr_lycc_lock_steps f st mode =
      [Event.rwlock LockId.context_lock mode st.conn.cid (some e)] ∧
    (sr_lycc_lock f st mode).2.conn = st.conn ∧
    (sr_lycc_lock f st mode).2.main_shm = st.main_shm ∧
    (sr_lycc_lock f st mode).2.mods = st.mods := by
  unfold sr_lycc_lock_steps
  rw [sr_lycc_lock_path_context_lock h0]
  simp

theorem sr_lycc_lock_context_lock_failure_witness :
    (sr_rwlock sampleWriteLocked.main_shm.context_lock SR_LOCK_READ sampleWriteLocked.conn.cid
      Faults.noFault.context_lock).1 = some LOCK_TIMEOUT ∧
    (sr_lycc_lock Faults.noFault sampleWriteLocked SR_LOCK_READ).1 = some LOCK_TIMEOUT ∧
    sr_lycc_lock_steps Faults.noFault sampleWriteLocked SR_LOCK_READ =
      [Event.rwlock LockId.context_lock SR_LOCK_READ 1 (some LOCK_TIMEOUT)] ∧
    (sr_lycc_lock Faults.noFault sampleWriteLocked SR_LOCK_READ).2.conn = sampleConn1 :=
  ⟨by decide,
   (sr_lycc_lock_context_lock_failure Faults.noFault sampleWriteLocked SR_LOCK_READ
      LOCK_TIMEOUT (by decide)).1,
   (sr_lycc_lock_context_lock_failure Faults.noFault sampleWriteLocked SR_LOCK_READ
      LOCK_TIMEOUT (by decide)).2.1,
   (sr_lycc_lock_context_lock_failure Faults.noFault sampleWriteLocked SR_LOCK_READ
      LOCK_TIMEOUT (by decide)).2.2.1⟩

/-- C3, as stated, fails: when loading the modules fails, the call returns
the error, but the cached context of the connection was already destroyed
and `conn->ly_ctx` is `NULL`, not the context the connection had before the
call. -/
theorem sr_lycc_lock_load_failure_loses_ly_ctx :
    (sr_lycc_lock faultLoad sampleStale SR_LOCK_READ).1 = some SCHEMA_RELOAD_FAILED ∧
    Event.ctx_load_modules (some SCHEMA_RELOAD_FAILED) ∈
      sr_lycc_lock_steps faultLoad sampleStale SR_LOCK_READ ∧
    sampleStale.conn.ly_ctx = some sampleOldCtx ∧
    (sr_lycc_lock faultLoad sampleStale SR_LOCK_READ).2.conn.ly_ctx = none ∧
    (sr_lycc_lock faultLoad sampleStale SR_LOCK_READ).2.conn.ly_ctx ≠ sampleStale.conn.ly_ctx := by
  decide

/-- C3, amended: if `sr_lycc_lock(conn, mode)` returns an error `e`, exactly
one step of the call failed with `e`.  If that step is the acquisition of
the remap lock, `sr_shm_remap` or the downgrade of the remap lock (or the
acquisition of the context lock), `conn->ly_ctx` is the same as before the
call.  If it is the load of the modules, the old context was destroyed
before and `conn->ly_ctx` is `NULL`.  In every case `conn->content_id` is
unchanged. -/
theorem sr_lycc_lock_error_ly_ctx (f : Faults) (st : State) (mode : sr_lock_mode_t)
    (e : sr_error_info_t) (h : (sr_lycc_lock f st mode).1 = some e) :
    ((Event.rwlock LockId.context_lock mode st.conn.cid (some e) ∈ sr_lycc_lock_steps f st mode ∨
      Event.rwlock LockId.remap_lock SR_LOCK_WRITE st.conn.cid (some e) ∈
        sr_lycc_lock_steps f st mode ∨
      Event.shm_remap (some e) ∈ sr_lycc_lock_steps f st mode ∨
      Event.rwrelock LockId.remap_lock SR_LOCK_READ st.conn.cid (some e) ∈
        sr_lycc_lock_steps f st mode) ∧
     Event.ctx_load_modules (some e) ∉ sr_lycc_lock_steps f st mode ∧
     (sr_lycc_lock f st mode).2.conn = st.conn) ∨
    (Event.ctx_load_modules (some e) ∈ sr_lycc_lock_steps f st mode ∧
     Event.ly_ctx_destroy st.conn.ly_ctx ∈ sr_lycc_lock_steps f st mode ∧
     (sr_lycc_lock f st mode).2.conn.ly_ctx = none ∧
     (sr_lycc_lock f st mode).2.conn.content_id = st.conn.content_id) := by
  unfold sr_lycc_lock_steps
  rcases sr_lycc_lock_result_cases f st mode with
    ⟨e0, h0⟩ | ⟨h0, hid⟩ | ⟨h0, hid, ⟨e0, h1⟩ | ⟨h1, ⟨e0, h2⟩ | ⟨h2, ⟨e0, h3⟩ | ⟨h3, ⟨e0, h4⟩ | h4⟩⟩⟩⟩
  · rw [sr_lycc_lock_path_context_lock h0] at h ⊢
    simp at h; subst h; left; simp
  · rw [sr_lycc_lock_path_current h0 hid] at h; simp at h
  · rw [sr_lycc_lock_path_remap_lock h0 hid h1] at h ⊢
    simp at h; subst h; left; simp
  · rw [sr_lycc_lock_path_shm_remap h0 hid h1 h2] at h ⊢
    simp at h; subst h; left; simp
  · rw [sr_lycc_lock_path_relock h0 hid h1 h2 h3] at h ⊢
    simp at h; subst h; left; simp
  · rw [sr_lycc_lock_path_load h0 hid h1 h2 h3 h4] at h ⊢
    simp at h; subst h; right; simp
  · rw [sr_lycc_lock_path_updated h0 hid h1 h2 h3 h4] at h; simp at h

theorem sr_lycc_lock_error_ly_ctx_witness :
    (sr_lycc_lock faultRelock sampleStale SR_LOCK_READ).1 = some LOCK_TIMEOUT ∧
    (((Event.rwlock LockId.context_lock SR_LOCK_READ sampleStale.conn.cid (some LOCK_TIMEOUT) ∈
        sr_lycc_lock_steps faultRelock sampleStale SR_LOCK_READ ∨
      Event.rwlock LockId.remap_lock SR_LOCK_WRITE sampleStale.conn.cid (some LOCK_TIMEOUT) ∈
        sr_lycc_lock_steps faultRelock sampleStale SR_LOCK_READ ∨
      Event.shm_remap (some LOCK_TIMEOUT) ∈ sr_lycc_lock_steps faultRelock sampleStale SR_LOCK_READ ∨
      Event.rwrelock LockId.remap_lock SR_LOCK_READ sampleStale.conn.cid (some LOCK_TIMEOUT) ∈
        sr_lycc_lock_steps faultRelock sampleStale SR_LOCK_READ) ∧
     Event.ctx_load_modules (some LOCK_TIMEOUT) ∉
       sr_lycc_lock_steps faultRelock sampleStale SR_LOCK_READ ∧
     (sr_lycc_lock faultRelock sampleStale SR_LOCK_READ).2.conn = sampleStale.conn) ∨
    (Event.ctx_load_modules (some LOCK_TIMEOUT) ∈
       sr_lycc_lock_steps faultRelock sampleStale SR_LOCK_READ ∧
     Event.ly_ctx_destroy sampleStale.conn.ly_ctx ∈
       sr_lycc_lock_steps faultRelock sampleStale SR_LOCK_READ ∧
     (sr_lycc_lock faultRelock sampleStale SR_LOCK_READ).2.conn.ly_ctx = none ∧
     (sr_lycc_lock faultRelock sampleStale SR_LOCK_READ).2.conn.content_id =
       sampleStale.conn.content_id)) :=
  ⟨by decide,
   sr_lycc_lock_error_ly_ctx faultRelock sampleStale SR_LOCK_READ LOCK_TIMEOUT (by decide)⟩

/-- C5: `sr_lycc_unlock(conn, mode)` releases the context lock in `mode` for
the cid of the connection and has no other effect: its only step is that
release, which drops one hold of the cid in `mode` and no other hold, and
the connection (context, content id, remap lock), the shared content id and
the stored modules are unchanged. -/
theorem sr_lycc_unlock_releases_only (st : State) (mode : sr_lock_mode_t) :
    (sr_lycc_unlock st mode).main_shm.context_lock =
      sr_rwunlock st.main_shm.context_lock mode st.conn.cid ∧
    (sr_lycc_unlock st mode).main_shm.context_lock.holders.count (st.conn.cid, mode) =
      st.main_shm.context_lock.holders.count (st.conn.cid, mode) - 1 ∧
    (∀ h : sr_cid_t × sr_lock_mode_t, h ≠ (st.conn.cid, mode) →
      (sr_lycc_unlock st mode).main_shm.context_lock.holders.count h =
        st.main_shm.context_lock.holders.count h) ∧
    (sr_lycc_unlock st mode).trace =
      st.trace ++ [Event.rwunlock LockId.context_lock mode st.conn.cid] ∧
    (sr_lycc_unlock st mode).conn = st.conn ∧
    (sr_lycc_unlock st mode).main_shm.content_id = st.main_shm.content_id ∧
    (sr_lycc_unlock st mode).mods = st.mods := by
  refine ⟨rfl, ?_, ?_, rfl, rfl, rfl, rfl⟩
  · simp [sr_lycc_unlock, sr_rwunlock, List.count_erase_self]
  · intro h hne
    simp [sr_lycc_unlock, sr_rwunlock, List.count_erase_of_ne hne]

theorem sr_lycc_unlock_releases_only_witness :
    (1, SR_LOCK_READ) ≠ (sampleShared.conn.cid, SR_LOCK_READ) ∧
    (sr_lycc_unlock sampleShared SR_LOCK_READ).main_shm.context_lock.holders.count
      (1, SR_LOCK_READ) = sampleShared.main_shm.context_lock.holders.count (1, SR_LOCK_READ) ∧
    (sr_lycc_unlock sampleShared SR_LOCK_READ).main_shm.context_lock =
      { holders := [(1, SR_LOCK_READ)] } :=
  ⟨by decide,
   (sr_lycc_unlock_releases_only sampleShared SR_LOCK_READ).2.2.1 (1, SR_LOCK_READ) (by decide),
   by decide⟩

/-- C4: once the context lock is acquired, a mismatch between the cached and
the shared content id is the sole trigger of a reload.  The call attempts to
take the remap lock if and only if the ids differ; it remaps main SHM,
destroys the cached context and loads the modules only if they differ (and
then exactly when the steps before succeeded), so when no step fails it does
all of that if and only if the ids differ.  When the ids are equal the call
returns success, its only step is the acquisition of the context lock, and
the connection (`ly_ctx`, `content_id`, remap lock) is unchanged. -/
theorem sr_lycc_lock_reload_iff_mismatch (f : Faults) (st : State) (mode : sr_lock_mode_t)
    (h0 : (sr_rwlock st.main_shm.context_lock mode st.conn.cid f.context_lock).1 = none) :
    ((∃ r, Event.rwlock LockId.remap_lock SR_LOCK_WRITE st.conn.cid r ∈
        sr_lycc_lock_steps f st mode) ↔
      st.main_shm.content_id ≠ st.conn.content_id) ∧
    ((∃ r, Event.shm_remap r ∈ sr_lycc_lock_steps f st mode) ↔
      (st.main_shm.content_id ≠ st.conn.content_id ∧
       (sr_rwlock st.conn.remap_lock SR_LOCK_WRITE st.conn.cid f.remap_lock).1 = none)) ∧
    ((∃ c, Event.ly_ctx_destroy c ∈ sr_lycc_lock_steps f st mode) ↔
      (st.main_shm.content_id ≠ st.conn.content_id ∧
       (sr_rwlock st.conn.remap_lock SR_LOCK_WRITE st.conn.cid f.remap_lock).1 = none ∧
       f.shm_remap = none ∧ f.remap_relock = none)) ∧
    ((∃ r, Event.ctx_load_modules r ∈ sr_lycc_lock_steps f st mode) ↔
      (st.main_shm.content_id ≠ st.conn.content_id ∧
       (sr_rwlock st.conn.remap_lock SR_LOCK_WRITE st.conn.cid f.remap_lock).1 = none ∧
       f.shm_remap = none ∧ f.remap_relock = none)) ∧
    (((sr_rwlock st.conn.remap_lock SR_LOCK_WRITE st.conn.cid f.remap_lock).1 = none ∧
       f.shm_remap = none ∧ f.remap_relock = none ∧ f.load_modules = none) →
      ((Event.rwlock LockId.remap_lock SR_LOCK_WRITE st.conn.cid none ∈
          sr_lycc_lock_steps f st mode ∧
        Event.shm_remap none ∈ sr_lycc_lock_steps f st mode ∧
        Event.ly_ctx_destroy st.conn.ly_ctx ∈ sr_lycc_lock_steps f st mode ∧
        Event.ctx_load_modules none ∈ sr_lycc_lock_steps f st mode) ↔
       st.main_shm.content_id ≠ st.conn.content_id)) ∧
    (st.main_shm.content_id = st.conn.content_id →
      ((sr_lycc_lock f st mode).1 = none ∧
       sr_lycc_lock_steps f st mode = [Event.rwlock LockId.context_lock mode st.conn.cid none] ∧
       (sr_lycc_lock f st mode).2.conn = st.conn)) := by
  unfold sr_lycc_lock_steps
  rcases sr_lycc_lock_result_cases f st mode with
    ⟨e0, h⟩ | ⟨-, hid⟩ | ⟨-, hid, ⟨e0, h1⟩ | ⟨h1, ⟨e0, h2⟩ | ⟨h2, ⟨e0, h3⟩ | ⟨h3, ⟨e0, h4⟩ | h4⟩⟩⟩⟩
  · rw [h0] at h; simp at h
  · rw [sr_lycc_lock_path_current h0 hid]; simp [hid]
  · rw [sr_lycc_lock_path_remap_lock h0 hid h1]; simp [hid, h1]
  · rw [sr_lycc_lock_path_shm_remap h0 hid h1 h2]; simp [hid, h1, h2]
  · rw [sr_lycc_lock_path_relock h0 hid h1 h2 h3]; simp [hid, h1, h2, h3]
  · rw [sr_lycc_lock_path_load h0 hid h1 h2 h3 h4]; simp [hid, h1, h2, h3, h4]
  · rw [sr_lycc_lock_path_updated h0 hid h1 h2 h3 h4]; simp [hid, h1, h2, h3, h4]

theorem sr_lycc_lock_reload_iff_mismatch_witness :
    (sr_rwlock sampleCurrent.main_shm.context_lock SR_LOCK_READ sampleCurrent.conn.cid
      Faults.noFault.context_lock).1 = none ∧
    sampleCurrent.main_shm.content_id = sampleCurrent.conn.content_id ∧
    ((sr_lycc_lock Faults.noFault sampleCurrent SR_LOCK_READ).1 = none ∧
     sr_lycc_lock_steps Faults.noFault sampleCurrent SR_LOCK_READ =
       [Event.rwlock LockId.context_lock SR_LOCK_READ sampleCurrent.conn.cid none] ∧
     (sr_lycc_lock Faults.noFault sampleCurrent SR_LOCK_READ).2.conn = sampleCurrent.conn) ∧
    ((∃ r, Event.rwlock LockId.remap_lock SR_LOCK_WRITE sampleStale.conn.cid r ∈
        sr_lycc_lock_steps Faults.noFault sampleStale SR_LOCK_READ) ↔
      sampleStale.main_shm.content_id ≠ sampleStale.conn.content_id) :=
  ⟨by decide, by decide,
   (sr_lycc_lock_reload_iff_mismatch Faults.noFault sampleCurrent SR_LOCK_READ
      (by decide)).2.2.2.2.2 (by decide),
   (sr_lycc_lock_reload_iff_mismatch Faults.noFault sampleStale SR_LOCK_READ (by decide)).1⟩

/-- C6: two connections whose cached content ids both differ from the shared
content id call `sr_lycc_lock(conn, SR_LOCK_READ)` one after the other,
shared memory being left alone in between and every step succeeding (no
routine is made to fail, nobody holds the context lock in WRITE mode and
both remap locks are free).  Both calls succeed, both perform the reload,
and afterwards both connections hold the context lock in READ mode, have a
cached content id equal to the shared one and a context loaded from the
same stored module table. -/
theorem sr_lycc_lock_two_stale_connections (st : State) (conn2 : sr_conn_ctx_t)
    (hs1 : st.conn.content_id ≠ st.main_shm.content_id)
    (hs2 : conn2.content_id ≠ st.main_shm.content_id)
    (hctx : sr_rwlock_compatible st.main_shm.context_lock SR_LOCK_READ = true)
    (hr1 : st.conn.remap_lock.holders = [])
    (hr2 : conn2.remap_lock.holders = []) :
    (sr_lycc_lock_both st conn2).1.1 = none ∧
    (sr_lycc_lock_both st conn2).2.1 = none ∧
    (sr_lycc_lock_both st conn2).1.2.conn.content_id = st.main_shm.content_id ∧
    (sr_lycc_lock_both st conn2).2.2.conn.content_id = st.main_shm.content_id ∧
    (sr_lycc_lock_both st conn2).2.2.main_shm.content_id = st.main_shm.content_id ∧
    (sr_lycc_lock_both st conn2).1.2.conn.ly_ctx = some { modules := st.mods } ∧
    (sr_lycc_lock_both st conn2).2.2.conn.ly_ctx = some { modules := st.mods } ∧
    (sr_lycc_lock_both st conn2).2.2.mods = st.mods ∧
    sr_rwlock_held (sr_lycc_lock_both st conn2).2.2.main_shm.context_lock
      st.conn.cid SR_LOCK_READ ∧
    sr_rwlock_held (sr_lycc_lock_both st conn2).2.2.main_shm.context_lock
      conn2.cid SR_LOCK_READ ∧
    (sr_lycc_lock_both st conn2).2.2.trace =
      st.trace ++
        [Event.rwlock LockId.context_lock SR_LOCK_READ st.conn.cid none,
         Event.rwlock LockId.remap_lock SR_LOCK_WRITE st.conn.cid none,
         Event.shm_remap none,
         Event.rwrelock LockId.remap_lock SR_LOCK_READ st.conn.cid none,
         Event.ly_ctx_destroy st.conn.ly_ctx,
         Event.ctx_load_modules none,
         Event.set_content_id st.main_shm.content_id,
         Event.rwunlock LockId.remap_lock SR_LOCK_READ st.conn.cid,
         Event.rwlock LockId.context_lock SR_LOCK_READ conn2.cid none,
         Event.rwlock LockId.remap_lock SR_LOCK_WRITE conn2.cid none,
         Event.shm_remap none,
         Event.rwrelock LockId.remap_lock SR_LOCK_READ conn2.cid none,
         Event.ly_ctx_destroy conn2.ly_ctx,
         Event.ctx_load_modules none,
         Event.set_content_id st.main_shm.content_id,
         Event.rwunlock LockId.remap_lock SR_LOCK_READ conn2.cid] := by
  have hc : st.main_shm.context_lock.holders.all (fun h => h.2 != SR_LOCK_WRITE) = true := by
    simpa [sr_rwlock_compatible] using hctx
  have h0 : (sr_rwlock st.main_shm.context_lock SR_LOCK_READ st.conn.cid
      Faults.noFault.context_lock).1 = none := by
    simp [sr_rwlock, Faults.noFault, hctx]
  have h1 : (sr_rwlock st.conn.remap_lock SR_LOCK_WRITE st.conn.cid
      Faults.noFault.remap_lock).1 = none := by
    simp [sr_rwlock, Faults.noFault, sr_rwlock_compatible, hr1]
  have e1 := @sr_lycc_lock_path_updated Faults.noFault st SR_LOCK_READ
    h0 (Ne.symm hs1) h1 rfl rfl rfl
  have h0b : (sr_rwlock ((sr_lycc_lock Faults.noFault st SR_LOCK_READ).2.forConn
      conn2).main_shm.context_lock SR_LOCK_READ
      ((sr_lycc_lock Faults.noFault st SR_LOCK_READ).2.forConn conn2).conn.cid
      Faults.noFault.context_lock).1 = none := by
    have hne : (SR_LOCK_READ != SR_LOCK_WRITE) = true := by decide
    rw [e1]
    simp [sr_rwlock, Faults.noFault, sr_rwlock_compatible, State.forConn, hne, hc]
  have h1b : (sr_rwlock ((sr_lycc_lock Faults.noFault st SR_LOCK_READ).2.forConn
      conn2).conn.remap_lock SR_LOCK_WRITE
      ((sr_lycc_lock Faults.noFault st SR_LOCK_READ).2.forConn conn2).conn.cid
      Faults.noFault.remap_lock).1 = none := by
    simp [sr_rwlock, Faults.noFault, sr_rwlock_compatible, State.forConn, hr2]
  have hidb : ((sr_lycc_lock Faults.noFault st SR_LOCK_READ).2.forConn
      conn2).main_shm.content_id ≠
      ((sr_lycc_lock Faults.noFault st SR_LOCK_READ).2.forConn conn2).conn.content_id := by
    rw [e1]
    simpa [State.forConn] using Ne.symm hs2
  have e2 := @sr_lycc_lock_path_updated Faults.noFault
    ((sr_lycc_lock Faults.noFault st SR_LOCK_READ).2.forConn conn2) SR_LOCK_READ
    h0b hidb h1b rfl rfl rfl
  unfold sr_lycc_lock_both
  rw [e2, e1]
  simp [State.forConn, sr_rwlock_held]

theorem sr_lycc_lock_two_stale_connections_witness :
    sampleStale.conn.content_id ≠ sampleStale.main_shm.content_id ∧
    sampleConn2.content_id ≠ sampleStale.main_shm.content_id ∧
    (sr_lycc_lock_both sampleStale sampleConn2).1.1 = none ∧
    (sr_lycc_lock_both sampleStale sampleConn2).2.1 = none ∧
    (sr_lycc_lock_both sampleStale sampleConn2).1.2.conn.content_id = 2 ∧
    (sr_lycc_lock_both sampleStale sampleConn2).2.2.conn.content_id = 2 ∧
    (sr_lycc_lock_both sampleStale sampleConn2).1.2.conn.ly_ctx =
      some { modules := sampleMods } ∧
    (sr_lycc_lock_both sampleStale sampleConn2).2.2.conn.ly_ctx =
      some { modules := sampleMods } :=
  have h := sr_lycc_lock_two_stale_connections sampleStale sampleConn2
    (by decide) (by decide) (by decide) (by decide) (by decide)
  ⟨by decide, by decide, h.1, h.2.1, h.2.2.1, h.2.2.2.1, h.2.2.2.2.2.1, h.2.2.2.2.2.2.1⟩

/-- C7: on every error path of `sr_lycc_lock` on which the remap lock was
acquired (the context lock was then acquired before it), the locks are
released in reverse order of acquisition: the steps begin with the
acquisition of the context lock followed by that of the remap lock and end
with the release of the remap lock followed by that of the context lock,
with no acquisition and no release of a lock in between. -/
theorem sr_lycc_lock_error_release_order (f : Faults) (st : State) (mode : sr_lock_mode_t)
    (e : sr_error_info_t) (h : (sr_lycc_lock f st mode).1 = some e)
    (hacq : Event.rwlock LockId.remap_lock SR_LOCK_WRITE st.conn.cid none ∈
      sr_lycc_lock_steps f st mode) :
    ∃ (mid : List Event) (remap_mode : sr_lock_mode_t),
      sr_lycc_lock_steps f st mode =
        [Event.rwlock LockId.context_lock mode st.conn.cid none,
         Event.rwlock LockId.remap_lock SR_LOCK_WRITE st.conn.cid none] ++ mid ++
        [Event.rwunlock LockId.remap_lock remap_mode st.conn.cid,
         Event.rwunlock LockId.context_lock mode st.conn.cid] ∧
      ∀ ev ∈ mid, ∀ lock : LockId, ev.isGrant lock = false ∧ ev.isRelease lock = false := by
  unfold sr_lycc_lock_steps at hacq ⊢
  rcases sr_lycc_lock_result_cases f st mode with
    ⟨e0, h0⟩ | ⟨h0, hid⟩ | ⟨h0, hid, ⟨e0, h1⟩ | ⟨h1, ⟨e0, h2⟩ | ⟨h2, ⟨e0, h3⟩ | ⟨h3, ⟨e0, h4⟩ | h4⟩⟩⟩⟩
  · rw [sr_lycc_lock_path_context_lock h0] at hacq; simp at hacq
  · rw [sr_lycc_lock_path_current h0 hid] at h; simp at h
  · rw [sr_lycc_lock_path_remap_lock h0 hid h1] at hacq; simp at hacq
  · rw [sr_lycc_lock_path_shm_remap h0 hid h1 h2]
    refine ⟨[Event.shm_remap (some e0)], SR_LOCK_WRITE, by simp, ?_⟩
    simp [Event.isGrant, Event.isRelease]
  · rw [sr_lycc_lock_path_relock h0 hid h1 h2 h3]
    refine ⟨[Event.shm_remap none,
      Event.rwrelock LockId.remap_lock SR_LOCK_READ st.conn.cid (some e0)],
      SR_LOCK_WRITE, by simp, ?_⟩
    simp [Event.isGrant, Event.isRelease]
  · rw [sr_lycc_lock_path_load h0 hid h1 h2 h3 h4]
    refine ⟨[Event.shm_remap none,
      Event.rwrelock LockId.remap_lock SR_LOCK_READ st.conn.cid none,
      Event.ly_ctx_destroy st.conn.ly_ctx, Event.ctx_load_modules (some e0)],
      SR_LOCK_READ, by simp, ?_⟩
    simp [Event.isGrant, Event.isRelease]
  · rw [sr_lycc_lock_path_updated h0 hid h1 h2 h3 h4] at h; simp at h

theorem sr_lycc_lock_error_release_order_witness :
    (sr_lycc_lock faultShmRemap sampleStale SR_LOCK_READ).1 = some REGION_REMAP_FAILED ∧
    Event.rwlock LockId.remap_lock SR_LOCK_WRITE sampleStale.conn.cid none ∈
      sr_lycc_lock_steps faultShmRemap sampleStale SR_LOCK_READ ∧
    ∃ (mid : List Event) (remap_mode : sr_lock_mode_t),
      sr_lycc_lock_steps faultShmRemap sampleStale SR_LOCK_READ =
        [Event.rwlock LockId.context_lock SR_LOCK_READ sampleStale.conn.cid none,
         Event.rwlock LockId.remap_lock SR_LOCK_WRITE sampleStale.conn.cid none] ++ mid ++
        [Event.rwunlock LockId.remap_lock remap_mode sampleStale.conn.cid,
         Event.rwunlock LockId.context_lock SR_LOCK_READ sampleStale.conn.cid] ∧
      ∀ ev ∈ mid, ∀ lock : LockId, ev.isGrant lock = false ∧ ev.isRelease lock = false :=
  ⟨by decide, by decide,
   sr_lycc_lock_error_release_order faultShmRemap sampleStale SR_LOCK_READ REGION_REMAP_FAILED
     (by decide) (by decide)⟩

/-- C8: the steps of `sr_lycc_lock` are always taken in the order of its
statements (acquisition of the context lock, acquisition of the remap lock
in WRITE mode, remap of main SHM, downgrade of the remap lock to READ,
destruction of the old context, load of the modules, update of the cached
content id, releases).  When the ids differ and no step fails, the steps are
exactly these.  The old context is destroyed only after the remap and the
downgrade have succeeded, the cached content id is set, to the shared
content id, only after the load has succeeded, and on every failing call
`conn->content_id` is unchanged. -/
theorem sr_lycc_lock_update_order (f : Faults) (st : State) (mode : sr_lock_mode_t) :
    ((sr_lycc_lock_steps f st mode).map Event.stepRank).Pairwise (fun a b => a < b) ∧
    (((sr_rwlock st.main_shm.context_lock mode st.conn.cid f.context_lock).1 = none ∧
      st.main_shm.content_id ≠ st.conn.content_id ∧
      (sr_rwlock st.conn.remap_lock SR_LOCK_WRITE st.conn.cid f.remap_lock).1 = none ∧
      f.shm_remap = none ∧ f.remap_relock = none ∧ f.load_modules = none) →
      sr_lycc_lock_steps f st mode =
        [Event.rwlock LockId.context_lock mode st.conn.cid none,
         Event.rwlock LockId.remap_lock SR_LOCK_WRITE st.conn.cid none,
         Event.shm_remap none,
         Event.rwrelock LockId.remap_lock SR_LOCK_READ st.conn.cid none,
         Event.ly_ctx_destroy st.conn.ly_ctx,
         Event.ctx_load_modules none,
         Event.set_content_id st.main_shm.content_id,
         Event.rwunlock LockId.remap_lock SR_LOCK_READ st.conn.cid]) ∧
    ((∃ c, Event.ly_ctx_destroy c ∈ sr_lycc_lock_steps f st mode) →
      ∃ rest, sr_lycc_lock_steps f st mode =
        [Event.rwlock LockId.context_lock mode st.conn.cid none,
         Event.rwlock LockId.remap_lock SR_LOCK_WRITE st.conn.cid none,
         Event.shm_remap none,
         Event.rwrelock LockId.remap_lock SR_LOCK_READ st.conn.cid none,
         Event.ly_ctx_destroy st.conn.ly_ctx] ++ rest) ∧
    ((∃ id, Event.set_content_id id ∈ sr_lycc_lock_steps f st mode) →
      ((sr_lycc_lock f st mode).1 = none ∧
       (sr_lycc_lock f st mode).2.conn.content_id = st.main_shm.content_id ∧
       ∃ rest, sr_lycc_lock_steps f st mode =
        [Event.rwlock LockId.context_lock mode st.conn.cid none,
         Event.rwlock LockId.remap_lock SR_LOCK_WRITE st.conn.cid none,
         Event.shm_remap none,
         Event.rwrelock LockId.remap_lock SR_LOCK_READ st.conn.cid none,
         Event.ly_ctx_destroy st.conn.ly_ctx,
         Event.ctx_load_modules none,
         Event.set_content_id st.main_shm.content_id] ++ rest)) ∧
    ((sr_lycc_lock f st mode).1 ≠ none →
      (sr_lycc_lock f st mode).2.conn.content_id = st.conn.content_id) := by
  unfold sr_lycc_lock_steps
  rcases sr_lycc_lock_result_cases f st mode with
    ⟨e0, h0⟩ | ⟨h0, hid⟩ | ⟨h0, hid, ⟨e0, h1⟩ | ⟨h1, ⟨e0, h2⟩ | ⟨h2, ⟨e0, h3⟩ | ⟨h3, ⟨e0, h4⟩ | h4⟩⟩⟩⟩
  · rw [sr_lycc_lock_path_context_lock h0]; simp [Event.stepRank, h0]
  · rw [sr_lycc_lock_path_current h0 hid]; simp [Event.stepRank, hid]
  · rw [sr_lycc_lock_path_remap_lock h0 hid h1]; simp [Event.stepRank, h1]
  · rw [sr_lycc_lock_path_shm_remap h0 hid h1 h2]; simp [Event.stepRank, h2]
  · rw [sr_lycc_lock_path_relock h0 hid h1 h2 h3]; simp [Event.stepRank, h3]
  · rw [sr_lycc_lock_path_load h0 hid h1 h2 h3 h4]; simp [Event.stepRank, h4]
  · rw [sr_lycc_lock_path_updated h0 hid h1 h2 h3 h4]; simp [Event.stepRank]

theorem sr_lycc_lock_update_order_witness :
    (sr_lycc_lock faultLoad sampleStale SR_LOCK_READ).1 ≠ none ∧
    (sr_lycc_lock faultLoad sampleStale SR_LOCK_READ).2.conn.content_id =
      sampleStale.conn.content_id ∧
    sr_lycc_lock_steps Faults.noFault sampleStale SR_LOCK_READ =
      [Event.rwlock LockId.context_lock SR_LOCK_READ sampleStale.conn.cid none,
       Event.rwlock LockId.remap_lock SR_LOCK_WRITE sampleStale.conn.cid none,
       Event.shm_remap none,
       Event.rwrelock LockId.remap_lock SR_LOCK_READ sampleStale.conn.cid none,
       Event.ly_ctx_destroy sampleStale.conn.ly_ctx,
       Event.ctx_load_modules none,
       Event.set_content_id sampleStale.main_shm.content_id,
       Event.rwunlock LockId.remap_lock SR_LOCK_READ sampleStale.conn.cid] :=
  ⟨by decide,
   (sr_lycc_lock_update_order faultLoad sampleStale SR_LOCK_READ).2.2.2.2 (by decide),
   (sr_lycc_lock_update_order Faults.noFault sampleStale SR_LOCK_READ).2.1
     ⟨by decide, by decide, by decide, rfl, rfl, rfl⟩⟩

/-- C9: whenever `sr_lycc_lock` acquires the remap lock, it releases it
exactly once before returning, on the success path and on every error path,
in the mode in which the lock is held then: `SR_LOCK_READ` if the downgrade
succeeded, `SR_LOCK_WRITE` if it did not (the remap or the downgrade
failed).  When the remap lock was not acquired, it is not released.  In
every case the remap lock is left in the state it had before the call. -/
theorem sr_lycc_lock_remap_lock_released_once (f : Faults) (st : State)
    (mode : sr_lock_mode_t) :
    ((Event.rwlock LockId.remap_lock SR_LOCK_WRITE st.conn.cid none ∈
        sr_lycc_lock_steps f st mode ∧
      Event.rwrelock LockId.remap_lock SR_LOCK_READ st.conn.cid none ∈
        sr_lycc_lock_steps f st mode) →
      (sr_lycc_lock_steps f st mode).filter (Event.isRelease LockId.remap_lock) =
        [Event.rwunlock LockId.remap_lock SR_LOCK_READ st.conn.cid]) ∧
    ((Event.rwlock LockId.remap_lock SR_LOCK_WRITE st.conn.cid none ∈
        sr_lycc_lock_steps f st mode ∧
      Event.rwrelock LockId.remap_lock SR_LOCK_READ st.conn.cid none ∉
        sr_lycc_lock_steps f st mode) →
      (sr_lycc_lock_steps f st mode).filter (Event.isRelease LockId.remap_lock) =
        [Event.rwunlock LockId.remap_lock SR_LOCK_WRITE st.conn.cid]) ∧
    (Event.rwlock LockId.remap_lock SR_LOCK_WRITE st.conn.cid none ∉
        sr_lycc_lock_steps f st mode →
      (sr_lycc_lock_steps f st mode).filter (Event.isRelease LockId.remap_lock) = []) ∧
    (sr_lycc_lock f st mode).2.conn.remap_lock = st.conn.remap_lock := by
  unfold sr_lycc_lock_steps
  rcases sr_lycc_lock_result_cases f st mode with
    ⟨e0, h0⟩ | ⟨h0, hid⟩ | ⟨h0, hid, ⟨e0, h1⟩ | ⟨h1, ⟨e0, h2⟩ | ⟨h2, ⟨e0, h3⟩ | ⟨h3, ⟨e0, h4⟩ | h4⟩⟩⟩⟩
  · rw [sr_lycc_lock_path_context_lock h0]; simp [Event.isRelease]
  · rw [sr_lycc_lock_path_current h0 hid]; simp [Event.isRelease]
  · rw [sr_lycc_lock_path_remap_lock h0 hid h1]; simp [Event.isRelease]
  · rw [sr_lycc_lock_path_shm_remap h0 hid h1 h2]; simp [Event.isRelease]
  · rw [sr_lycc_lock_path_relock h0 hid h1 h2 h3]; simp [Event.isRelease]
  · rw [sr_lycc_lock_path_load h0 hid h1 h2 h3 h4]; simp [Event.isRelease]
  · rw [sr_lycc_lock_path_updated h0 hid h1 h2 h3 h4]; simp [Event.isRelease]

theorem sr_lycc_lock_remap_lock_released_once_witness :
    (Event.rwlock LockId.remap_lock SR_LOCK_WRITE sampleStale.conn.cid none ∈
        sr_lycc_lock_steps faultRelock sampleStale SR_LOCK_READ ∧
      Event.rwrelock LockId.remap_lock SR_LOCK_READ sampleStale.conn.cid none ∉
        sr_lycc_lock_steps faultRelock sampleStale SR_LOCK_READ) ∧
    (sr_lycc_lock_steps faultRelock sampleStale SR_LOCK_READ).filter
        (Event.isRelease LockId.remap_lock) =
      [Event.rwunlock LockId.remap_lock SR_LOCK_WRITE sampleStale.conn.cid] ∧
    (sr_lycc_lock_steps Faults.noFault sampleStale SR_LOCK_READ).filter
        (Event.isRelease LockId.remap_lock) =
      [Event.rwunlock LockId.remap_lock SR_LOCK_READ sampleStale.conn.cid] ∧
    (sr_lycc_lock_steps Faults.noFault sampleCurrent SR_LOCK_READ).filter
        (Event.isRelease LockId.remap_lock) = [] :=
  ⟨by decide,
   (sr_lycc_lock_remap_lock_released_once faultRelock sampleStale SR_LOCK_READ).2.1
     (by decide),
   (sr_lycc_lock_remap_lock_released_once Faults.noFault sampleStale SR_LOCK_READ).1
     (by decide),
   (sr_lycc_lock_remap_lock_released_once Faults.noFault sampleCurrent SR_LOCK_READ).2.2.1
     (by decide)⟩

end Sysrepo
